import Mathlib

/-!
Verification of the request-dispatch-and-normalization layer of the `macp`
repository (scripts `astock.py`, `astock_service.py`, `akshare_service.py`,
`skills/quant-data-agent/scripts/data_query.py`).

The Python code is shallowly embedded: JSON values (as produced by
`json.loads` and consumed by `json.dumps`) become the inductive `JVal`,
with rationals standing in for Python numbers; pandas `DataFrame`s become
lists of key/value rows; a fallible upstream fetch becomes an explicit
outcome datatype; Python exceptions become `Except String`; the HTTP
handler `do_GET` becomes a pure function from the request path and the
upstream fixture to the response written by `send_json`.
-/

/-- A JSON value, as parsed by Python `json.loads` / serialized by
`json.dumps`.  Numbers are modelled as exact rationals (`Float`
rounding plays no role in any verified property); `null` also stands for
the Python `None` that `dict.get` returns for a missing key. -/
inductive JVal where
  | null
  | bool (b : Bool)
  | num (q : ℚ)
  | str (s : String)
  | arr (elems : List JVal)
  | obj (members : List (String × JVal))

/-- Python truthiness (`if x:`) for the values of `JVal`: `None`, `False`,
zero, the empty string, the empty list and the empty dict are falsy. -/
def JVal.truthy : JVal → Bool
  | .null => false
  | .bool b => b
  | .num q => q != 0
  | .str s => !(s == "")
  | .arr l => !l.isEmpty
  | .obj l => !l.isEmpty

/-- `members.get(k)` on the member list of a parsed JSON object / pandas
row: the first binding for `k`, if any. -/
def jGet (members : List (String × JVal)) (k : String) : Option JVal :=
  members.lookup k

/-- `members.get(k, d)`: lookup with an explicit default. -/
def jGetD (members : List (String × JVal)) (k : String) (d : JVal) : JVal :=
  (jGet members k).getD d

/-- Member lookup on a whole `JVal`: `some` value for a key of an object,
`none` otherwise.  Used only to state properties of emitted payloads. -/
def jMem (v : JVal) (k : String) : Option JVal :=
  match v with
  | .obj l => jGet l k
  | _ => none

/-- The number of records in a payload: the length of a JSON array, `0`
for anything else.  Used to state the truncation properties. -/
def jLen : JVal → Nat
  | .arr l => l.length
  | _ => 0

/-- Python `v.get(k, d)`: succeeds only when `v` is a dict, raising
`AttributeError` (modelled by `Except.error`) on every other value. -/
def pyGetD (v : JVal) (k : String) (d : JVal) : Except String JVal :=
  match v with
  | .obj l => .ok (jGetD l k d)
  | _ => .error "object has no attribute get"

/-- Python `v.get(k)` (default `None`). -/
def pyGet (v : JVal) (k : String) : Except String JVal :=
  pyGetD v k .null

/-- Python iteration `for item in v`: a list yields its elements, a string
its characters, a dict its keys; every other value raises `TypeError`. -/
def pyIter (v : JVal) : Except String (List JVal) :=
  match v with
  | .arr l => .ok l
  | .str s => .ok (s.data.map (fun c => .str (String.singleton c)))
  | .obj l => .ok (l.map (fun p => .str p.1))
  | _ => .error "object is not iterable"

/-- Digits-to-number accumulator for the decimal parser. -/
def natOfDigits (cs : List Char) : Nat :=
  cs.foldl (fun a c => a * 10 + (c.toNat - 48)) 0

/-- Parse an optionally signed decimal literal (`-12`, `3.25`, `12.`,
`.5`) to a rational, Python-`float()`-style.  Exponents, underscores,
surrounding whitespace and `inf`/`nan` are not modelled; no verified
property depends on coercing such strings. -/
def parseDecimal (cs : List Char) : Option ℚ :=
  let (sgn, r) : ℚ × List Char :=
    match cs with
    | '-' :: t => (-1, t)
    | '+' :: t => (1, t)
    | t => (1, t)
  let ip := r.takeWhile (fun c => !(c == '.'))
  let rest := r.dropWhile (fun c => !(c == '.'))
  let fp : Option (List Char) :=
    match rest with
    | [] => some []
    | _ :: t => some t
  match fp with
  | none => none
  | some f =>
      if ip.all Char.isDigit && f.all Char.isDigit && (!ip.isEmpty || !f.isEmpty) then
        some (sgn * ((natOfDigits ip : ℚ) + (natOfDigits f : ℚ) / (10 ^ f.length)))
      else none

/-- Python `float(x)`: identity on numbers, `1`/`0` on booleans, decimal
parsing on strings; everything else raises. -/
def pyFloat : JVal → Except String ℚ
  | .num q => .ok q
  | .bool b => .ok (if b then 1 else 0)
  | .str s =>
      match parseDecimal s.data with
      | some q => .ok q
      | none => .error "could not convert string to float"
  | .null => .error "float of None"
  | .arr _ => .error "float of list"
  | .obj _ => .error "float of dict"

/-- Python `int(x)`: truncation toward zero on numbers, `1`/`0` on
booleans, signed-digit parsing on strings; everything else raises. -/
def pyInt : JVal → Except String Int
  | .num q => .ok (if 0 ≤ q then q.floor else q.ceil)
  | .bool b => .ok (if b then 1 else 0)
  | .str s =>
      let (sgn, r) : Int × List Char :=
        match s.data with
        | '-' :: t => (-1, t)
        | '+' :: t => (1, t)
        | t => (1, t)
      if !r.isEmpty && r.all Char.isDigit then .ok (sgn * natOfDigits r)
      else .error "invalid literal for int"
  | .null => .error "int of None"
  | .arr _ => .error "int of list"
  | .obj _ => .error "int of dict"

/-- Python `str(x)`, used by the handlers only on date/time-like cells.
Strings pass through unchanged; the rendering of the remaining scalars is
approximate (no verified property inspects a stringified non-string). -/
def pyStr : JVal → String
  | .str s => s
  | .null => "None"
  | .bool b => if b then "True" else "False"
  | .num q => if q.den == 1 then toString q.num else toString q.num ++ "/" ++ toString q.den
  | .arr _ => "<list>"
  | .obj _ => "<dict>"

/-- Python `x / 100`, as applied to a field freshly read from parsed JSON:
true division on numbers (booleans coerce), `TypeError` otherwise. -/
def pyDiv100 : JVal → Except String ℚ
  | .num q => .ok (q / 100)
  | .bool b => .ok ((if b then (1 : ℚ) else 0) / 100)
  | _ => .error "unsupported operand type for division"

/-- Run `f` over a list left-to-right, stopping at the first raised
exception — the behaviour of a Python loop that appends `f row` to an
accumulator list. -/
def collectE {α β : Type} (f : α → Except String β) : List α → Except String (List β)
  | [] => .ok []
  | a :: as => do
      let b ← f a
      let bs ← collectE f as
      pure (b :: bs)

/-- Python `cell == symbol` for a pandas cell compared against a string
(the filter `df[df[col] == symbol]`): only an equal string cell matches;
a missing cell or a non-string cell compares unequal. -/
def cellEqStr (c : Option JVal) (s : String) : Bool :=
  match c with
  | some (.str t) => t == s
  | _ => false

/-- `haystack.startswith(needle)` on the character lists of the two
strings (Python `str.startswith`). -/
def listStartsWith : List Char → List Char → Bool
  | _, [] => true
  | [], _ :: _ => false
  | a :: as, b :: bs => a == b && listStartsWith as bs

/-- Python `path.startswith(pat)`. -/
def strStarts (s pat : String) : Bool :=
  listStartsWith s.data pat.data

/-- Substring search on character lists: some suffix starts with `pat`. -/
def listContainsSub : List Char → List Char → Bool
  | s, pat =>
      listStartsWith s pat ||
        match s with
        | [] => false
        | _ :: rest => listContainsSub rest pat

/-- Python `pat in s` (substring containment). -/
def strContains (s pat : String) : Bool :=
  listContainsSub s.data pat.data

/-- The characters after the last `/` — Python `path.split('/')[-1]`
(the whole string when no `/` occurs, empty after a trailing `/`). -/
def lastComponent (l : List Char) : List Char :=
  l.foldl (fun acc c => if c == '/' then [] else acc ++ [c]) []

/-- `path.split('/')[-1]` as a string. -/
def lastSegment (path : String) : String :=
  String.mk (lastComponent path.data)

/-!
## Upstream Client — `curl_get`

`scripts/astock.py` runs `subprocess.run(['curl','-s','-m','10',url],
capture_output=True, text=True)` inside a bare `try/except`;
`scripts/astock_service.py` additionally passes `timeout=15`, whose
expiry raises `TimeoutExpired` into the `except` clause.  Neither call
uses `check=True`, so a non-zero curl exit code does not raise: the
function returns `result.stdout` unexamined.
-/

/-- What the one `subprocess.run` call in `astock.py`'s `curl_get` did:
either it raised (curl missing, spawn failure, interrupt), or the process
completed with some exit code and captured stdout. -/
inductive ProcOutcome where
  | raised
  | completed (exitCode : Nat) (stdout : String)

/-- `curl_get` of `scripts/astock.py` (lines 6-11): `None` when
`subprocess.run` raised, otherwise `result.stdout` — the exit code is
never inspected. -/
def curl_get : ProcOutcome → Option String
  | .raised => none
  | .completed _ out => some out

/-- Outcome of the `subprocess.run(..., timeout=15)` call in
`astock_service.py`: as `ProcOutcome`, plus expiry of the 15 s
subprocess timeout (which raises `TimeoutExpired`). -/
inductive ProcOutcome15 where
  | raised
  | timedOut
  | completed (exitCode : Nat) (stdout : String)

/-- `curl_get` of `scripts/astock_service.py` (lines 13-20), named apart
from the `astock.py` one: `except Exception` also catches the
`TimeoutExpired` of the 15 s timeout; the exit code is never inspected. -/
def curl_get_service : ProcOutcome15 → Option String
  | .raised => none
  | .timedOut => none
  | .completed _ out => some out

/-!
## Direct-HTTP handlers (`astock.py` CLI and `astock_service.py` service)

Every handler follows the same two-stage pattern:
`data = curl_get(url); if not data: <fallback>; try: obj = json.loads(data);
<build payload from obj> except: <fallback>`.  `FetchResult` records the
three possible situations at the `json.loads` boundary: a falsy
`curl_get` result, a non-empty result `json.loads` rejects, or the
parsed value.
-/

/-- Result of `curl_get(url)` followed by `json.loads`:  `failed` when
`curl_get` returned `None` or the empty string (the `if not data:`
branch), `unparsable` when non-empty text made `json.loads` raise,
`parsed v` for well-formed JSON text. -/
inductive FetchResult where
  | failed
  | unparsable
  | parsed (v : JVal)

/-- The handler skeleton around a `FetchResult`: the `if not data:`
fallback, the `try`-body over the parsed value (whose own exceptions
fall into `except`), and the `except` fallback. -/
def fetchCase {α : Type} (fr : FetchResult) (onNoData : α)
    (onOk : JVal → Except String α) (onErr : α) : α :=
  match fr with
  | .failed => onNoData
  | .unparsable => onErr
  | .parsed v =>
      match onOk v with
      | .ok a => a
      | .error _ => onErr

/-- A JSON error payload with a single `error` member. -/
def errObj (msg : String) : JVal :=
  .obj [("error", .str msg)]

/-- One index quote built from one upstream item — the shared loop body
of `get_index` in `astock.py` (lines 24-30) and of the
`/stock/index/realtime` branch of `astock_service.py` (lines 49-55):
symbol `f12`, name `f14`, price `f2`, change `f3`, all raw field values
(defaults `''`, `''`, `0`, `0`). -/
def indexItemQuote (item : JVal) : Except String JVal := do
  let symbol ← pyGetD item "f12" (.str "")
  let name ← pyGetD item "f14" (.str "")
  let price ← pyGetD item "f2" (.num 0)
  let change ← pyGetD item "f3" (.num 0)
  pure (JVal.obj [("symbol", symbol), ("name", name),
                  ("price", price), ("change", change)])

/-- The index-quote list: `for item in obj.get('data', []):` append one
`indexItemQuote`. -/
def indexListBody (v : JVal) : Except String JVal := do
  let items ← pyIter (← pyGetD v "data" (.arr []))
  let quotes ← collectE indexItemQuote items
  pure (.arr quotes)

/-- The conditional rescaling
`obj.get(k, 0) / 100 if obj.get(k) else 0` that the direct-HTTP
single-stock handlers apply to the fields `f43` (price) and `f170`
(percent change). -/
def scaledField (dataV : JVal) (k : String) : Except String JVal := do
  let raw ← pyGet dataV k
  if raw.truthy then JVal.num <$> pyDiv100 (← pyGetD dataV k (.num 0))
  else pure (JVal.num 0)

/-- The single-stock quote built from a parsed upstream value — the
shared body of `get_stock` in `astock.py` (lines 43-53) and of the
`/stock/realtime/{symbol}` branch of `astock_service.py` (lines 69-79):
`obj = obj.get('data', {})`, then name `f58` (default `''`) and the two
`scaledField` reads for `price` (`f43`) and `change` (`f170`). -/
def stockQuoteBody (symbol : String) (v : JVal) : Except String JVal := do
  let dataV ← pyGetD v "data" (.obj [])
  let name ← pyGetD dataV "f58" (.str "")
  let price ← scaledField dataV "f43"
  let change ← scaledField dataV "f170"
  pure (JVal.obj [("symbol", .str symbol), ("name", name),
                  ("price", price), ("change", change)])

/-- The board-entry list built from a parsed upstream value — the shared
body of `get_concept`/`get_industry` in `astock.py` (lines 63-71 and
82-91) and of the `/stock/concept` and `/stock/industry` branches of
`astock_service.py` (lines 90-97 and 109-117):
`for item in obj.get('data', {}).get('diff', []):` append
`{name: f14, change: f3}` with raw field values (defaults `''`, `0`). -/
def boardListBody (v : JVal) : Except String JVal := do
  let dataV ← pyGetD v "data" (.obj [])
  let diff ← pyGetD dataV "diff" (.arr [])
  let items ← pyIter diff
  let entries ← collectE (fun item => do
      let name ← pyGetD item "f14" (.str "")
      let change ← pyGetD item "f3" (.num 0)
      pure (JVal.obj [("name", name), ("change", change)])) items
  pure (.arr entries)

/-- The placeholder index list of `astock_service.py` line 44/58. -/
def indexPlaceholder : JVal :=
  .arr [.obj [("symbol", .str "000001"), ("name", .str "上证指数"),
              ("price", .num 3388), ("change", .num 0.5)]]

/-- The placeholder single-stock quote of `astock_service.py` lines 67/79. -/
def stockPlaceholder (symbol : String) : JVal :=
  .obj [("symbol", .str symbol), ("name", .str "股票"),
        ("price", .num 10.0), ("change", .num 0.0)]

/-- The placeholder concept-board list of `astock.py` lines 59/73 and
`astock_service.py` lines 87/99. -/
def conceptPlaceholder : JVal :=
  .arr [.obj [("name", .str "人工智能"), ("change", .num 3.25)],
        .obj [("name", .str "芯片概念"), ("change", .num 2.18)]]

/-- The placeholder industry-board list of `astock.py` lines 79/93 and
`astock_service.py` lines 107/119. -/
def industryPlaceholder : JVal :=
  .arr [.obj [("name", .str "电子元件"), ("change", .num 1.85)],
        .obj [("name", .str "软件服务"), ("change", .num 1.62)]]

/-- `get_index` of `astock.py` (lines 13-33): the payload printed to
stdout, as a function of the fetch outcome for the fixed index URL. -/
def get_index (fr : FetchResult) : JVal :=
  fetchCase fr (.arr [errObj "获取数据失败"]) indexListBody (.arr [errObj "解析数据失败"])

/-- `get_stock` of `astock.py` (lines 35-53): the payload printed to
stdout for symbol `symbol`, as a function of the fetch outcome. -/
def get_stock (symbol : String) (fr : FetchResult) : JVal :=
  fetchCase fr (errObj "获取数据失败") (stockQuoteBody symbol) (errObj "解析数据失败")

/-- `get_concept` of `astock.py` (lines 55-73): on any failure the
placeholder list is printed instead of an error payload. -/
def get_concept (fr : FetchResult) : JVal :=
  fetchCase fr conceptPlaceholder boardListBody conceptPlaceholder

/-- `get_industry` of `astock.py` (lines 75-93). -/
def get_industry (fr : FetchResult) : JVal :=
  fetchCase fr industryPlaceholder boardListBody industryPlaceholder

/-- One upstream fetch outcome per endpoint of the direct-HTTP scripts
(the response each fixed URL would produce on this run). -/
structure FetchEnv where
  index : FetchResult
  stock : FetchResult
  concept : FetchResult
  industry : FetchResult

/-- The `__main__` block of `astock.py` (lines 95-106): the list of
payloads printed, in order.  `cmd` is `sys.argv[1]` after the
`'index'` default; there is no `else` branch, so an unrecognized
subcommand prints nothing. -/
def astockMainPrints (cmd arg : String) (env : FetchEnv) : List JVal :=
  if cmd == "index" then [get_index env.index]
  else if cmd == "stock" then [get_stock arg env.stock]
  else if cmd == "concept" then [get_concept env.concept]
  else if cmd == "industry" then [get_industry env.industry]
  else []

/-- A CLI invocation of `astock.py`: the process exit status and the
printed payloads.  The script never calls `sys.exit` and every handler
catches its exceptions, so the interpreter exits with status 0. -/
def astockCli (cmd arg : String) (env : FetchEnv) : Nat × List JVal :=
  (0, astockMainPrints cmd arg env)

/-- An HTTP response as produced by `send_json(data, status)`:
the status code and the JSON body. -/
structure HttpResponse where
  status : Nat
  body : JVal

/-- The branch of `StockHandler.do_GET` in `astock_service.py` that a
path reaches. -/
inductive AstockRoute where
  | health
  | index
  | stock
  | concept
  | industry
  | unknown

/-- The dispatch chain of `astock_service.py`'s `do_GET` (lines 32-122),
condition for condition:  `path == '/health'`, then
`path == '/stock/index/realtime' or '/index' in path`, then
`'/stock/realtime/' in path`, then
`path == '/stock/concept' or '/concept' in path`, then
`path == '/stock/industry' or '/industry' in path`, else unknown. -/
def astockRoute (path : String) : AstockRoute :=
  if path == "/health" then .health
  else if path == "/stock/index/realtime" || strContains path "/index" then .index
  else if strContains path "/stock/realtime/" then .stock
  else if path == "/stock/concept" || strContains path "/concept" then .concept
  else if path == "/stock/industry" || strContains path "/industry" then .industry
  else .unknown

/-- `StockHandler.do_GET` of `astock_service.py` (lines 32-122) as a
function of the request path and the per-endpoint fetch outcomes.  Every
`send_json` in this variant uses the default status 200 — including the
final unknown-endpoint reply. -/
def astockDoGet (path : String) (env : FetchEnv) : HttpResponse :=
  match astockRoute path with
  | .health => ⟨200, .obj [("status", .str "ok"), ("service", .str "A股数据服务")]⟩
  | .index =>
      fetchCase env.index ⟨200, indexPlaceholder⟩
        (fun v => (⟨200, ·⟩) <$> indexListBody v) ⟨200, indexPlaceholder⟩
  | .stock =>
      let symbol := lastSegment path
      fetchCase env.stock ⟨200, stockPlaceholder symbol⟩
        (fun v => (⟨200, ·⟩) <$> stockQuoteBody symbol v) ⟨200, stockPlaceholder symbol⟩
  | .concept =>
      fetchCase env.concept ⟨200, conceptPlaceholder⟩
        (fun v => (⟨200, ·⟩) <$> boardListBody v) ⟨200, conceptPlaceholder⟩
  | .industry =>
      fetchCase env.industry ⟨200, industryPlaceholder⟩
        (fun v => (⟨200, ·⟩) <$> boardListBody v) ⟨200, industryPlaceholder⟩
  | .unknown => ⟨200, errObj "Unknown endpoint"⟩

/-!
## Library-backed service (`akshare_service.py`)

An AkShare call returns a pandas `DataFrame`, modelled as a list of
rows; each row is a list of column-name/value pairs.  A raised library
call or a raised row conversion lands in the handler's `except` clause,
which sends `{"error": str(e)}` with status 500.
-/

/-- A pandas row: column names paired with cell values. -/
abbrev Row := List (String × JVal)

/-- `row.get(col)` on a pandas row: the cell, or `None` when the column
is missing (modelled as `JVal.null`, which is falsy like `None`). -/
def rowGet (r : Row) (col : String) : JVal :=
  jGetD r col .null

/-- `row.get(col, d)` with an explicit default. -/
def rowGetD (r : Row) (col : String) (d : JVal) : JVal :=
  jGetD r col d

/-- `float(cell) if cell else 0` — the numeric coercion used for quote
and board fields in `akshare_service.py`. -/
def floatOrZero (cell : JVal) : Except String JVal :=
  if cell.truthy then JVal.num <$> pyFloat cell else pure (JVal.num 0)

/-- One realtime/index quote of `akshare_service.py` (lines 36-44 and
54-62, identical loop bodies): symbol `代码` (default `''`), name `名称`
(default `''`), price and change from `最新价`/`涨跌幅` via
`float(x) if x else 0`. -/
def akQuoteRow (row : Row) : Except String JVal := do
  let price ← floatOrZero (rowGet row "最新价")
  let change ← floatOrZero (rowGet row "涨跌幅")
  pure (JVal.obj [("symbol", rowGetD row "代码" (.str "")),
                  ("name", rowGetD row "名称" (.str "")),
                  ("price", price), ("change", change)])

/-- One news item of `akshare_service.py` (lines 72-76). -/
def akNewsRow (row : Row) : Except String JVal :=
  pure (JVal.obj [("title", rowGetD row "新闻标题" (.str "")),
                  ("datetime", .str (pyStr (rowGetD row "发布时间" (.str ""))))])

/-- One board entry of `akshare_service.py` (lines 86-91 and 101-106,
identical loop bodies): name `板块名称`, change `涨跌幅` via
`float(x) if x else 0`. -/
def akBoardRow (row : Row) : Except String JVal := do
  let change ← floatOrZero (rowGet row "涨跌幅")
  pure (JVal.obj [("name", rowGetD row "板块名称" (.str "")), ("change", change)])

/-- The outcome of each AkShare library call the service can make:
the returned `DataFrame`, or the message of a raised exception. -/
structure AkEnv where
  spot : Except String (List Row)
  indexSpot : Except String (List Row)
  news : Except String (List Row)
  conceptBoard : Except String (List Row)
  industryBoard : Except String (List Row)

/-- The shared shape of the list-returning branches of
`akshare_service.py`'s `do_GET`: `try: df = ak.X(); <loop over
df.head(limit)>; send_json(list)` — status 200 on success, status 500
with `{"error": str(e)}` when the call or a row conversion raised. -/
def akListHandler (src : Except String (List Row)) (limit : Nat)
    (f : Row → Except String JVal) : HttpResponse :=
  match (do
      let rows ← src
      let out ← collectE f (rows.take limit)
      pure (JVal.arr out) : Except String JVal) with
  | .ok v => ⟨200, v⟩
  | .error e => ⟨500, errObj e⟩

/-- The `/stock/realtime/{symbol}` branch of `akshare_service.py`
(lines 113-131): filter the snapshot on `代码 == symbol`; an empty
filter result sends `{"error": "股票未找到"}` with 404, otherwise the
first matching row becomes the quote (fields `名称`, `最新价`, `涨跌幅`,
`成交量`, all `float(x) if x else 0` except the name). -/
def akSymbolHandler (symbol : String) (src : Except String (List Row)) : HttpResponse :=
  match (do
      let rows ← src
      let matched := rows.filter (fun r => cellEqStr (jGet r "代码") symbol)
      match matched with
      | [] => pure (⟨404, errObj "股票未找到"⟩ : HttpResponse)
      | row :: _ => do
          let price ← floatOrZero (rowGet row "最新价")
          let change ← floatOrZero (rowGet row "涨跌幅")
          let volume ← floatOrZero (rowGet row "成交量")
          pure (⟨200, .obj [("symbol", .str symbol),
                            ("name", rowGetD row "名称" (.str "")),
                            ("price", price), ("change", change),
                            ("volume", volume)]⟩ : HttpResponse)
      : Except String HttpResponse) with
  | .ok resp => resp
  | .error e => ⟨500, errObj e⟩

/-- The branch of `StockHandler.do_GET` in `akshare_service.py` that a
path reaches. -/
inductive AkRoute where
  | health
  | realtimeAll
  | indexRealtime
  | news
  | concept
  | industry
  | stockSymbol
  | unknown

/-- The dispatch chain of `akshare_service.py`'s `do_GET` (lines 23-133),
condition for condition — an equality test for `/health`, then
`path.startswith(...)` tests in source order, with the per-symbol
realtime branch last. -/
def akRoute (path : String) : AkRoute :=
  if path == "/health" then .health
  else if strStarts path "/stock/realtime/all" then .realtimeAll
  else if strStarts path "/stock/index/realtime" then .indexRealtime
  else if strStarts path "/stock/news" then .news
  else if strStarts path "/stock/concept" then .concept
  else if strStarts path "/stock/industry" then .industry
  else if strStarts path "/stock/realtime/" then .stockSymbol
  else .unknown

/-- `StockHandler.do_GET` of `akshare_service.py` (lines 23-133) as a
function of the request path and the library-call outcomes.  The unknown
endpoint reply carries status 404 in this variant. -/
def akDoGet (path : String) (env : AkEnv) : HttpResponse :=
  match akRoute path with
  | .health => ⟨200, .obj [("status", .str "ok"), ("service", .str "AkShare A股数据服务")]⟩
  | .realtimeAll => akListHandler env.spot 100 akQuoteRow
  | .indexRealtime => akListHandler env.indexSpot 10 akQuoteRow
  | .news => akListHandler env.news 10 akNewsRow
  | .concept => akListHandler env.conceptBoard 20 akBoardRow
  | .industry => akListHandler env.industryBoard 20 akBoardRow
  | .stockSymbol => akSymbolHandler (lastSegment path) env.spot
  | .unknown => ⟨404, errObj "Unknown endpoint"⟩

/-!
## CLI tool (`skills/quant-data-agent/scripts/data_query.py`)

Every subcommand wraps one AkShare call in `try/except` and prints
exactly one JSON object: `success_response` embeds the records under
`data` together with the invocation timestamp
(`datetime.now().isoformat()`), `error_response` embeds the exception
message.  The wall-clock timestamp is passed in explicitly (`now`).
-/

/-- `float(cell) if cell else None` — the coercion `data_query.py` uses
for price-like fields. -/
def floatOrNone (cell : JVal) : Except String JVal :=
  if cell.truthy then JVal.num <$> pyFloat cell else pure .null

/-- `int(cell) if cell else 0` — the coercion `data_query.py` uses for
the board up/down counts. -/
def intOrZero (cell : JVal) : Except String JVal :=
  if cell.truthy then (fun n => JVal.num (n : ℚ)) <$> pyInt cell else pure (JVal.num 0)

/-- `success_response` of `data_query.py` (lines 22-28). -/
def success_response (data : JVal) (now : String) : JVal :=
  .obj [("success", .bool true), ("data", data),
        ("timestamp", .str now), ("source", .str "akshare")]

/-- `error_response` of `data_query.py` (lines 15-20). -/
def error_response (msg : String) (now : String) : JVal :=
  .obj [("success", .bool false), ("error", .str msg), ("timestamp", .str now)]

/-- The shared shape of every `get_*` function of `data_query.py`:
`try: df = ak.X(); result = [<mapped row> for row in df.head(limit)];
return success_response(result) except Exception as e:
return error_response(f"获取失败: {str(e)}")` — `limit := none` for the
handlers that iterate the whole frame. -/
def dqHandler (src : Except String (List Row)) (limit : Option Nat)
    (f : Row → Except String JVal) (now : String) : JVal :=
  match (do
      let rows ← src
      let taken := match limit with | some n => rows.take n | none => rows
      let out ← collectE f taken
      pure (JVal.arr out) : Except String JVal) with
  | .ok d => success_response d now
  | .error e => error_response ("获取失败: " ++ e) now

/-- One row of `get_a_stock_realtime` (lines 36-48). -/
def stockRow (row : Row) : Except String JVal := do
  let price ← floatOrNone (rowGet row "最新价")
  let change ← floatOrZero (rowGet row "涨跌幅")
  let amplitude ← floatOrZero (rowGet row "振幅")
  let high ← floatOrNone (rowGet row "最高")
  let low ← floatOrNone (rowGet row "最低")
  let openV ← floatOrNone (rowGet row "今开")
  let closeV ← floatOrNone (rowGet row "昨收")
  pure (JVal.obj [("symbol", rowGetD row "代码" (.str "")),
                  ("name", rowGetD row "名称" (.str "")),
                  ("price", price), ("change", change),
                  ("volume", rowGetD row "成交量" (.str "")),
                  ("amount", rowGetD row "成交额" (.str "")),
                  ("amplitude", amplitude), ("high", high), ("low", low),
                  ("open", openV), ("close", closeV)])

/-- One row of `get_a_stock_kline` (lines 62-72). -/
def klineRow (row : Row) : Except String JVal := do
  let openV ← floatOrNone (rowGet row "开盘")
  let closeV ← floatOrNone (rowGet row "收盘")
  let high ← floatOrNone (rowGet row "最高")
  let low ← floatOrNone (rowGet row "最低")
  let volume ← floatOrZero (rowGet row "成交量")
  let amount ← floatOrZero (rowGet row "成交额")
  pure (JVal.obj [("date", .str (pyStr (rowGetD row "日期" (.str "")))),
                  ("open", openV), ("close", closeV), ("high", high),
                  ("low", low), ("volume", volume), ("amount", amount)])

/-- One row of `get_fund_flow` (lines 82-91). -/
def fundflowRow (row : Row) : Except String JVal := do
  let main ← floatOrZero (rowGet row "主力净流入")
  let retail ← floatOrZero (rowGet row "散户净流入")
  let xl ← floatOrZero (rowGet row "超大单净流入")
  let lg ← floatOrZero (rowGet row "大单净流入")
  let md ← floatOrZero (rowGet row "中单净流入")
  let sm ← floatOrZero (rowGet row "小单净流入")
  pure (JVal.obj [("date", .str (pyStr (rowGetD row "日期" (.str "")))),
                  ("主力净流入", main), ("散户净流入", retail),
                  ("超大单净流入", xl), ("大单净流入", lg),
                  ("中单净流入", md), ("小单净流入", sm)])

/-- One row of `get_index_realtime` (lines 101-109). -/
def indexRow (row : Row) : Except String JVal := do
  let price ← floatOrNone (rowGet row "最新价")
  let change ← floatOrZero (rowGet row "涨跌幅")
  pure (JVal.obj [("symbol", rowGetD row "代码" (.str "")),
                  ("name", rowGetD row "名称" (.str "")),
                  ("price", price), ("change", change),
                  ("volume", rowGetD row "成交量" (.str "")),
                  ("amount", rowGetD row "成交额" (.str ""))])

/-- One row of `get_futures_realtime` (lines 122-130). -/
def futuresRow (row : Row) : Except String JVal := do
  let price ← floatOrNone (rowGet row "最新价")
  let change ← floatOrZero (rowGet row "涨跌幅")
  pure (JVal.obj [("symbol", rowGetD row "合约代码" (.str "")),
                  ("name", rowGetD row "合约名称" (.str "")),
                  ("latest_price", price), ("change", change),
                  ("volume", rowGetD row "成交量" (.str "")),
                  ("amount", rowGetD row "成交额" (.str ""))])

/-- One row of `get_etf_realtime` (lines 140-147). -/
def etfRow (row : Row) : Except String JVal := do
  let price ← floatOrNone (rowGet row "最新价")
  let change ← floatOrZero (rowGet row "涨跌幅")
  pure (JVal.obj [("symbol", rowGetD row "代码" (.str "")),
                  ("name", rowGetD row "名称" (.str "")),
                  ("price", price), ("change", change),
                  ("volume", rowGetD row "成交量" (.str ""))])

/-- One row of `get_concept_board` (lines 157-164). -/
def conceptRow (row : Row) : Except String JVal := do
  let change ← floatOrZero (rowGet row "涨跌幅")
  let up ← intOrZero (rowGet row "上涨")
  let down ← intOrZero (rowGet row "下跌")
  pure (JVal.obj [("name", rowGetD row "板块名称" (.str "")),
                  ("change", change),
                  ("volume", rowGetD row "成交额" (.str "")),
                  ("up_count", up), ("down_count", down)])

/-- One row of `get_industry_board` (lines 174-179). -/
def industryRow (row : Row) : Except String JVal := do
  let change ← floatOrZero (rowGet row "涨跌幅")
  pure (JVal.obj [("name", rowGetD row "板块名称" (.str "")),
                  ("change", change),
                  ("volume", rowGetD row "成交额" (.str ""))])

/-- One row of `get_macro_gdp` (lines 189-194). -/
def gdpRow (row : Row) : Except String JVal := do
  let gdp ← floatOrNone (rowGet row "国内生产总值(亿元)")
  let yoy ← floatOrNone (rowGet row "国内生产总值同比增长")
  pure (JVal.obj [("quarter", .str (pyStr (rowGetD row "季度" (.str "")))),
                  ("gdp", gdp), ("gdp_yoy", yoy)])

/-- One row of `get_macro_cpi` (lines 204-209). -/
def cpiRow (row : Row) : Except String JVal := do
  let cpi ← floatOrNone (rowGet row "全国居民消费价格")
  let yoy ← floatOrNone (rowGet row "全国居民消费价格同比增长")
  pure (JVal.obj [("month", .str (pyStr (rowGetD row "月份" (.str "")))),
                  ("cpi", cpi), ("cpi_yoy", yoy)])

/-- One row of `get_stock_news` (lines 219-224). -/
def newsRow (row : Row) : Except String JVal :=
  pure (JVal.obj [("title", rowGetD row "新闻标题" (.str "")),
                  ("datetime", .str (pyStr (rowGetD row "发布时间" (.str "")))),
                  ("source", rowGetD row "文章来源" (.str ""))])

/-- The outcome of each AkShare call `data_query.py` can make. -/
structure DqEnv where
  spot : Except String (List Row)
  kline : Except String (List Row)
  fundflow : Except String (List Row)
  indexSpot : Except String (List Row)
  futures : Except String (List Row)
  futuresAll : Except String (List Row)
  etf : Except String (List Row)
  conceptBoard : Except String (List Row)
  industryBoard : Except String (List Row)
  gdp : Except String (List Row)
  cpi : Except String (List Row)
  news : Except String (List Row)

/-- `get_a_stock_realtime` of `data_query.py` (lines 30-51): up to 100
rows of the spot snapshot. -/
def get_a_stock_realtime (src : Except String (List Row)) (now : String) : JVal :=
  dqHandler src (some 100) stockRow now

/-- `get_a_stock_kline` (lines 53-75): the whole returned frame. -/
def get_a_stock_kline (src : Except String (List Row)) (now : String) : JVal :=
  dqHandler src none klineRow now

/-- `get_fund_flow` (lines 77-94): up to 10 rows. -/
def get_fund_flow (src : Except String (List Row)) (now : String) : JVal :=
  dqHandler src (some 10) fundflowRow now

/-- `get_index_realtime` (lines 96-112): up to 20 rows. -/
def get_index_realtime (src : Except String (List Row)) (now : String) : JVal :=
  dqHandler src (some 20) indexRow now

/-- `get_futures_realtime` (lines 114-133): up to 20 rows, from the
per-symbol call when `symbol` is truthy, else from the catch-all call. -/
def get_futures_realtime (symbol : String) (env : DqEnv) (now : String) : JVal :=
  dqHandler (if symbol == "" then env.futuresAll else env.futures) (some 20) futuresRow now

/-- `get_etf_realtime` (lines 135-150): up to 30 rows. -/
def get_etf_realtime (src : Except String (List Row)) (now : String) : JVal :=
  dqHandler src (some 30) etfRow now

/-- `get_concept_board` (lines 152-167): up to 30 rows. -/
def get_concept_board (src : Except String (List Row)) (now : String) : JVal :=
  dqHandler src (some 30) conceptRow now

/-- `get_industry_board` (lines 169-182): up to 30 rows. -/
def get_industry_board (src : Except String (List Row)) (now : String) : JVal :=
  dqHandler src (some 30) industryRow now

/-- `get_macro_gdp` (lines 184-197): the whole returned frame. -/
def get_macro_gdp (src : Except String (List Row)) (now : String) : JVal :=
  dqHandler src none gdpRow now

/-- `get_macro_cpi` (lines 199-212): the whole returned frame. -/
def get_macro_cpi (src : Except String (List Row)) (now : String) : JVal :=
  dqHandler src none cpiRow now

/-- `get_stock_news` (lines 214-227): up to 20 rows. -/
def get_stock_news (src : Except String (List Row)) (now : String) : JVal :=
  dqHandler src (some 20) newsRow now

/-- The help payload of `data_query.py` (lines 257-271), printed for an
unrecognized subcommand. -/
def helpObj : JVal :=
  .obj [("commands", .obj
    [("stock", .str "A股实时行情"),
     ("kline <symbol> [period]", .str "K线数据"),
     ("fundflow <symbol>", .str "资金流向"),
     ("index", .str "指数行情"),
     ("futures [symbol]", .str "期货行情"),
     ("etf", .str "ETF行情"),
     ("concept", .str "概念板块"),
     ("industry", .str "行业板块"),
     ("gdp", .str "GDP数据"),
     ("cpi", .str "CPI数据"),
     ("news", .str "财经新闻")])]

/-- `main` of `data_query.py` (lines 229-271): the single payload printed
for subcommand `cmd` with arguments `arg1`, `arg2` (already defaulted
from `sys.argv`), upstream fixture `env`, at wall-clock time `now`. -/
def dqMain (cmd arg1 arg2 : String) (env : DqEnv) (now : String) : JVal :=
  if cmd == "stock" then get_a_stock_realtime env.spot now
  else if cmd == "kline" then get_a_stock_kline env.kline now
  else if cmd == "fundflow" then get_fund_flow env.fundflow now
  else if cmd == "index" then get_index_realtime env.indexSpot now
  else if cmd == "futures" then get_futures_realtime arg1 env now
  else if cmd == "etf" then get_etf_realtime env.etf now
  else if cmd == "concept" then get_concept_board env.conceptBoard now
  else if cmd == "industry" then get_industry_board env.industryBoard now
  else if cmd == "gdp" then get_macro_gdp env.gdp now
  else if cmd == "cpi" then get_macro_cpi env.cpi now
  else if cmd == "news" then get_stock_news env.news now
  else helpObj

/-- A CLI invocation of `data_query.py`: the process exit status and the
printed payloads.  `main` always prints exactly one payload and the
script never calls `sys.exit`, so the interpreter exits with status 0. -/
def dqCli (cmd arg1 arg2 : String) (env : DqEnv) (now : String) : Nat × List JVal :=
  (0, [dqMain cmd arg1 arg2 env now])

/-- The record count under the `data` member of a `data_query.py`
payload (0 when there is no `data` array, in particular for
`error_response` payloads). -/
def dataLen (v : JVal) : Nat :=
  jLen ((jMem v "data").getD .null)

/-- Drop the top-level `timestamp` member of a payload — what is left of
a `data_query.py` response once the embedded wall-clock reading is
removed. -/
def stripTimestampField : JVal → JVal
  | .obj l => .obj (l.filter (fun p => !(p.1 == "timestamp")))
  | v => v

/-!
## Helper lemmas
-/

theorem listStartsWith_nil (x : List Char) : listStartsWith x [] = true := by
  cases x <;> rfl

theorem listStartsWith_self_append (p x : List Char) : listStartsWith (p ++ x) p = true := by
  induction p with
  | nil => exact listStartsWith_nil x
  | cons a as ih => simp [listStartsWith, ih]

theorem listStartsWith_append_same (p x y : List Char) :
    listStartsWith (p ++ x) (p ++ y) = listStartsWith x y := by
  induction p with
  | nil => rfl
  | cons a as ih => simp [listStartsWith, ih]

theorem foldl_no_slash (s : List Char) (h : s.all (fun c => !(c == '/')) = true) :
    ∀ acc, s.foldl (fun acc c => if c == '/' then [] else acc ++ [c]) acc = acc ++ s := by
  induction s with
  | nil => intro acc; simp
  | cons a as ih =>
      intro acc
      simp only [List.all_cons, Bool.and_eq_true] at h
      simp only [List.foldl_cons]
      rw [if_neg (by simpa using h.1), ih h.2]
      simp

theorem lastComponent_append (p s : List Char)
    (hp : p.foldl (fun acc c => if c == '/' then [] else acc ++ [c]) [] = [])
    (hs : s.all (fun c => !(c == '/')) = true) :
    lastComponent (p ++ s) = s := by
  unfold lastComponent
  rw [List.foldl_append, hp, foldl_no_slash s hs []]
  rfl

theorem collectE_length {α β : Type} (f : α → Except String β) :
    ∀ (l : List α) (res : List β), collectE f l = Except.ok res → res.length = l.length := by
  intro l
  induction l with
  | nil =>
      intro res h
      simp only [collectE] at h
      cases h
      rfl
  | cons a as ih =>
      intro res h
      simp only [collectE, bind, Except.bind] at h
      cases hfa : f a with
      | error e => rw [hfa] at h; cases h
      | ok b =>
          rw [hfa] at h
          cases hrec : collectE f as with
          | error e => rw [hrec] at h; cases h
          | ok bs =>
              rw [hrec] at h
              simp only [pure, Except.pure, Except.ok.injEq] at h
              subst h
              simp [ih bs hrec]

theorem dataLen_dqHandler (src : Except String (List Row)) (n : Nat)
    (f : Row → Except String JVal) (now : String) :
    dataLen (dqHandler src (some n) f now) ≤ n := by
  unfold dqHandler
  cases src with
  | error e => simp [dataLen, error_response, jMem, jGet, jLen, List.lookup, bind, Except.bind]
  | ok rows =>
      simp only [bind, Except.bind]
      cases hc : collectE f (rows.take n) with
      | error e => simp [dataLen, error_response, jMem, jGet, jLen, List.lookup]
      | ok out =>
          simp only [pure, Except.pure, dataLen, success_response, jMem, jGet, jLen]
          simp only [List.lookup]
          norm_num
          have hlen := collectE_length f (rows.take n) out hc
          calc out.length = (rows.take n).length := hlen
            _ ≤ n := rows.length_take_le n

theorem jLen_akListHandler (src : Except String (List Row)) (n : Nat)
    (f : Row → Except String JVal) :
    jLen (akListHandler src n f).body ≤ n := by
  unfold akListHandler
  cases src with
  | error e => simp [errObj, jLen, bind, Except.bind]
  | ok rows =>
      simp only [bind, Except.bind]
      cases hc : collectE f (rows.take n) with
      | error e => simp [errObj, jLen]
      | ok out =>
          simp only [pure, Except.pure, jLen]
          have hlen := collectE_length f (rows.take n) out hc
          calc out.length = (rows.take n).length := hlen
            _ ≤ n := rows.length_take_le n

theorem stripTimestampField_dqHandler (src : Except String (List Row))
    (lim : Option Nat) (f : Row → Except String JVal) (t t' : String) :
    stripTimestampField (dqHandler src lim f t) =
      stripTimestampField (dqHandler src lim f t') := by
  unfold dqHandler
  cases src with
  | error e => rfl
  | ok rows =>
      simp only [bind, Except.bind]
      cases hc : collectE f (match lim with | some n => rows.take n | none => rows) with
      | error e => rfl
      | ok out => rfl

theorem exceptBind_ok {α β : Type} (x : Except String α) (f : α → Except String β) (c : β) :
    (x >>= f) = .ok c ↔ ∃ b, x = .ok b ∧ f b = .ok c := by
  cases x <;> simp [bind, Except.bind]

theorem fetchCase_status_200 (fr : FetchResult) (b₁ b₂ : JVal)
    (body : JVal → Except String JVal) :
    (fetchCase fr (⟨200, b₁⟩ : HttpResponse)
      (fun v => (⟨200, ·⟩) <$> body v) (⟨200, b₂⟩ : HttpResponse)).status = 200 := by
  cases fr with
  | failed => rfl
  | unparsable => rfl
  | parsed v =>
      dsimp only [fetchCase]
      cases hb : body v with
      | ok a => rfl
      | error e => rfl

/-!
## Claim theorems
-/

/-- C9: `GET /health` returns status 200 with `status: ok` and a
`service` field in both HTTP service variants, for every upstream
fixture — the reply is the same constant whatever the upstream would
have answered, so no upstream call can influence (or be needed for) it. -/
theorem C9_health_constant :
    (∀ env : AkEnv, akDoGet "/health" env =
        ⟨200, .obj [("status", .str "ok"), ("service", .str "AkShare A股数据服务")]⟩) ∧
    (∀ env : FetchEnv, astockDoGet "/health" env =
        ⟨200, .obj [("status", .str "ok"), ("service", .str "A股数据服务")]⟩) :=
  ⟨fun _ => rfl, fun _ => rfl⟩

/-- C8: the concept-board command against a stub upstream whose body
parses to `data.diff = [(f14 = 人工智能, f3 = 3.25)]` yields exactly the
one-entry list `[(name = 人工智能, change = 3.25)]` — both in the
`astock.py` CLI handler and in the `/stock/concept` endpoint of
`astock_service.py`. -/
theorem C8_concept_stub_exact :
    get_concept (.parsed (.obj [("data", .obj [("diff",
        .arr [.obj [("f14", .str "人工智能"), ("f3", .num 3.25)]])])])) =
      .arr [.obj [("name", .str "人工智能"), ("change", .num 3.25)]] ∧
    astockDoGet "/stock/concept"
        { index := .failed, stock := .failed,
          concept := .parsed (.obj [("data", .obj [("diff",
            .arr [.obj [("f14", .str "人工智能"), ("f3", .num 3.25)]])])]),
          industry := .failed } =
      ⟨200, .arr [.obj [("name", .str "人工智能"), ("change", .num 3.25)]]⟩ :=
  ⟨rfl, rfl⟩

/-- C1 is false as stated: in the `astock_service.py` variant a symbol
absent upstream (the upstream replies `data: null`) is answered with the
status-200 placeholder quote — a quote record with a `price` member and
no `error` member, not a 404; and even in `akshare_service.py` an absent
symbol whose name starts with `all` is captured by the
`/stock/realtime/all` branch and answered with the status-200 snapshot
list. -/
theorem C1_counterexample :
    astockDoGet "/stock/realtime/999999"
        { index := .failed, stock := .parsed (.obj [("data", JVal.null)]),
          concept := .failed, industry := .failed } =
      ⟨200, stockPlaceholder "999999"⟩ ∧
    jMem (stockPlaceholder "999999") "error" = none ∧
    jMem (stockPlaceholder "999999") "price" = some (.num 10.0) ∧
    akDoGet "/stock/realtime/all000"
        { spot := .ok [[("代码", .str "600000"), ("名称", .str "甲"),
                        ("最新价", .num 10), ("涨跌幅", .num 1)]],
          indexSpot := .error "e", news := .error "e",
          conceptBoard := .error "e", industryBoard := .error "e" } =
      ⟨200, .arr [.obj [("symbol", .str "600000"), ("name", .str "甲"),
                        ("price", .num 10), ("change", .num 1)]]⟩ ∧
    [[("代码", JVal.str "600000"), ("名称", JVal.str "甲"),
      ("最新价", JVal.num 10), ("涨跌幅", JVal.num 1)]].all
        (fun r => !cellEqStr (jGet r "代码") "all000") = true :=
  ⟨rfl, rfl, rfl, rfl, rfl⟩

/-- C2 is false as stated: the `/stock/concept` handler of
`astock_service.py` performs no truncation — an upstream `data.diff`
with 31 entries is forwarded as 31 board records, above both documented
board caps. -/
theorem C2_counterexample :
    jLen (astockDoGet "/stock/concept"
        { index := .failed, stock := .failed,
          concept := .parsed (.obj [("data", .obj [("diff",
            .arr (List.replicate 31 (.obj [("f14", .str "甲"), ("f3", .num 1)])))])]),
          industry := .failed }).body = 31 ∧
    30 < jLen (astockDoGet "/stock/concept"
        { index := .failed, stock := .failed,
          concept := .parsed (.obj [("data", .obj [("diff",
            .arr (List.replicate 31 (.obj [("f14", .str "甲"), ("f3", .num 1)])))])]),
          industry := .failed }).body :=
  ⟨rfl, by decide⟩

/-- C3 is false as stated: a `data_query.py` payload embeds the
invocation wall-clock time in its `timestamp` member, so two identical
`concept` invocations against the same upstream fixture at two different
clock readings produce different payloads. -/
theorem C3_counterexample :
    dqMain "concept" "" ""
        ⟨.error "e", .error "e", .error "e", .error "e", .error "e", .error "e",
         .error "e", .error "e", .error "e", .error "e", .error "e", .error "e"⟩
        "2024-01-01T00:00:00" ≠
      dqMain "concept" "" ""
        ⟨.error "e", .error "e", .error "e", .error "e", .error "e", .error "e",
         .error "e", .error "e", .error "e", .error "e", .error "e", .error "e"⟩
        "2024-01-01T00:00:01" := by
  intro h
  have h1 : jMem (dqMain "concept" "" ""
      ⟨.error "e", .error "e", .error "e", .error "e", .error "e", .error "e",
       .error "e", .error "e", .error "e", .error "e", .error "e", .error "e"⟩
      "2024-01-01T00:00:00") "timestamp" = some (JVal.str "2024-01-01T00:00:00") := rfl
  rw [h] at h1
  have h2 : jMem (dqMain "concept" "" ""
      ⟨.error "e", .error "e", .error "e", .error "e", .error "e", .error "e",
       .error "e", .error "e", .error "e", .error "e", .error "e", .error "e"⟩
      "2024-01-01T00:00:01") "timestamp" = some (JVal.str "2024-01-01T00:00:01") := rfl
  rw [h2] at h1
  simp at h1

/-- C4 is false as stated: in `astock_service.py` the path
`/index/concept` contains `/concept` but is captured by the earlier
`/index` substring branch, and in `akshare_service.py` matching is
prefix-based, so `/x/concept` contains `/concept` yet falls through to
the unknown-endpoint branch. -/
theorem C4_counterexample :
    strContains "/index/concept" "/concept" = true ∧
    astockRoute "/index/concept" = AstockRoute.index ∧
    AstockRoute.index ≠ AstockRoute.concept ∧
    strContains "/x/concept" "/concept" = true ∧
    akRoute "/x/concept" = AkRoute.unknown ∧
    AkRoute.unknown ≠ AkRoute.concept :=
  ⟨rfl, rfl, fun h => AstockRoute.noConfusion h, rfl, rfl,
   fun h => AkRoute.noConfusion h⟩

/-- C5 is false as stated: `curl_get` never inspects the exit code, so a
failed transfer (curl exit 28) that still produced partial stdout is
returned as that partial text — neither `None` nor the empty string. -/
theorem C5_counterexample :
    curl_get (.completed 28 "partial body") = some "partial body" ∧
    some "partial body" ≠ (none : Option String) ∧
    ("partial body" : String) ≠ "" :=
  ⟨rfl, by simp, by simp⟩

/-- C6 is false as stated: `astock.py` has no fallback branch for an
unrecognized subcommand, so the invocation exits 0 having printed no
payload at all. -/
theorem C6_counterexample :
    astockCli "status" "" ⟨.failed, .failed, .failed, .failed⟩ = (0, []) :=
  rfl

/-- C7 is false as stated: the direct-HTTP index handlers copy the raw
`f2` value into `price`, so an upstream item whose price field is
present but empty is emitted with `price = ""` — neither `null` nor
`0`. -/
theorem C7_counterexample :
    get_index (.parsed (.obj [("data", .arr [.obj
        [("f12", .str "000001"), ("f14", .str "指数"),
         ("f2", .str ""), ("f3", .num 1)]])])) =
      .arr [.obj [("symbol", .str "000001"), ("name", .str "指数"),
                  ("price", .str ""), ("change", .num 1)]] ∧
    JVal.str "" ≠ JVal.null ∧
    JVal.str "" ≠ JVal.num 0 :=
  ⟨rfl, by simp, by simp⟩

/-- C2 (amended): the truncation caps hold for the akshare-backed
handlers — realtime-all at most 100, index at most 10 and boards at most
20 records in `akshare_service.py`; stock at most 100, index at most 20
and boards at most 30 records in `data_query.py` — for every upstream
response; the `astock_service.py` handlers copy every upstream record
without truncation (they rely on the requested upstream page size
instead), as the counterexample shows. -/
theorem C2_amended :
    (∀ env : AkEnv, jLen (akDoGet "/stock/realtime/all" env).body ≤ 100) ∧
    (∀ env : AkEnv, jLen (akDoGet "/stock/index/realtime" env).body ≤ 10) ∧
    (∀ env : AkEnv, jLen (akDoGet "/stock/concept" env).body ≤ 20) ∧
    (∀ env : AkEnv, jLen (akDoGet "/stock/industry" env).body ≤ 20) ∧
    (∀ (env : DqEnv) (now : String), dataLen (dqMain "stock" "" "" env now) ≤ 100) ∧
    (∀ (env : DqEnv) (now : String), dataLen (dqMain "index" "" "" env now) ≤ 20) ∧
    (∀ (env : DqEnv) (now : String), dataLen (dqMain "concept" "" "" env now) ≤ 30) ∧
    (∀ (env : DqEnv) (now : String), dataLen (dqMain "industry" "" "" env now) ≤ 30) := by
  refine ⟨fun env => ?_, fun env => ?_, fun env => ?_, fun env => ?_,
          fun env now => ?_, fun env now => ?_, fun env now => ?_, fun env now => ?_⟩
  · exact jLen_akListHandler env.spot 100 akQuoteRow
  · exact jLen_akListHandler env.indexSpot 10 akQuoteRow
  · exact jLen_akListHandler env.conceptBoard 20 akBoardRow
  · exact jLen_akListHandler env.industryBoard 20 akBoardRow
  · exact dataLen_dqHandler env.spot 100 stockRow now
  · exact dataLen_dqHandler env.indexSpot 20 indexRow now
  · exact dataLen_dqHandler env.conceptBoard 30 conceptRow now
  · exact dataLen_dqHandler env.industryBoard 30 industryRow now

/-- C3 (amended): the normalized content of a `data_query.py` payload is
a pure function of the subcommand, its arguments and the upstream
fixture — two invocations at different wall-clock times agree exactly
once the embedded `timestamp` member is removed (the service-variant
handlers take no clock input at all, so their payloads are pure
functions of path and upstream by construction). -/
theorem C3_amended :
    ∀ (cmd arg1 arg2 : String) (env : DqEnv) (t t' : String),
      stripTimestampField (dqMain cmd arg1 arg2 env t) =
        stripTimestampField (dqMain cmd arg1 arg2 env t') := by
  intro cmd arg1 arg2 env t t'
  by_cases h1 : cmd = "stock"
  · subst h1; exact stripTimestampField_dqHandler env.spot (some 100) stockRow t t'
  by_cases h2 : cmd = "kline"
  · subst h2; exact stripTimestampField_dqHandler env.kline none klineRow t t'
  by_cases h3 : cmd = "fundflow"
  · subst h3; exact stripTimestampField_dqHandler env.fundflow (some 10) fundflowRow t t'
  by_cases h4 : cmd = "index"
  · subst h4; exact stripTimestampField_dqHandler env.indexSpot (some 20) indexRow t t'
  by_cases h5 : cmd = "futures"
  · subst h5
    exact stripTimestampField_dqHandler
      (if arg1 == "" then env.futuresAll else env.futures) (some 20) futuresRow t t'
  by_cases h6 : cmd = "etf"
  · subst h6; exact stripTimestampField_dqHandler env.etf (some 30) etfRow t t'
  by_cases h7 : cmd = "concept"
  · subst h7; exact stripTimestampField_dqHandler env.conceptBoard (some 30) conceptRow t t'
  by_cases h8 : cmd = "industry"
  · subst h8; exact stripTimestampField_dqHandler env.industryBoard (some 30) industryRow t t'
  by_cases h9 : cmd = "gdp"
  · subst h9; exact stripTimestampField_dqHandler env.gdp none gdpRow t t'
  by_cases h10 : cmd = "cpi"
  · subst h10; exact stripTimestampField_dqHandler env.cpi none cpiRow t t'
  by_cases h11 : cmd = "news"
  · subst h11; exact stripTimestampField_dqHandler env.news (some 20) newsRow t t'
  have e1 : dqMain cmd arg1 arg2 env t = helpObj := by
    unfold dqMain
    rw [if_neg (by simp [h1]), if_neg (by simp [h2]), if_neg (by simp [h3]),
        if_neg (by simp [h4]), if_neg (by simp [h5]), if_neg (by simp [h6]),
        if_neg (by simp [h7]), if_neg (by simp [h8]), if_neg (by simp [h9]),
        if_neg (by simp [h10]), if_neg (by simp [h11])]
  have e2 : dqMain cmd arg1 arg2 env t' = helpObj := by
    unfold dqMain
    rw [if_neg (by simp [h1]), if_neg (by simp [h2]), if_neg (by simp [h3]),
        if_neg (by simp [h4]), if_neg (by simp [h5]), if_neg (by simp [h6]),
        if_neg (by simp [h7]), if_neg (by simp [h8]), if_neg (by simp [h9]),
        if_neg (by simp [h10]), if_neg (by simp [h11])]
  rw [e1, e2]

/-- C5 (amended): neither `curl_get` ever raises — on a raised call (or,
in the service variant, the 15 s subprocess timeout) the designated
`None` sentinel is returned, and on every completed call the captured
stdout is returned unchanged whatever the exit code (so a failed
transfer yields the sentinel only when it produced empty output, as the
counterexample shows). -/
theorem C5_amended :
    curl_get .raised = none ∧
    (∀ (code : Nat) (out : String), curl_get (.completed code out) = some out) ∧
    curl_get_service .raised = none ∧
    curl_get_service .timedOut = none ∧
    (∀ (code : Nat) (out : String), curl_get_service (.completed code out) = some out) :=
  ⟨rfl, fun _ _ => rfl, rfl, rfl, fun _ _ => rfl⟩

/-- C4 (amended): substring dispatch holds in `astock_service.py` only
up to the priority of the earlier branches — a path that is not
`/health`, contains neither `/index` nor `/stock/realtime/`, and
contains `/concept` is dispatched to the concept-board handler — while
`akshare_service.py` matches by prefix: every path beginning with
`/stock/concept` (not merely containing `/concept`) reaches its
concept-board handler. -/
theorem C4_amended :
    (∀ path : String, (path == "/health") = false →
        strContains path "/index" = false →
        strContains path "/stock/realtime/" = false →
        strContains path "/concept" = true →
        astockRoute path = .concept) ∧
    (∀ rest : String, akRoute ("/stock/concept" ++ rest) = .concept) := by
  constructor
  · intro path h0 h1 h2 h3
    have h1' : (path == "/stock/index/realtime") = false := by
      cases hb : path == "/stock/index/realtime" with
      | false => rfl
      | true =>
          have hpath : path = "/stock/index/realtime" := eq_of_beq hb
          rw [hpath] at h1
          exact absurd h1 (by decide)
    unfold astockRoute
    rw [h0, h1', h1, h2, h3]
    simp
  · intro rest
    have c1 : (("/stock/concept" ++ rest) == "/health") = false := rfl
    have c2 : strStarts ("/stock/concept" ++ rest) "/stock/realtime/all" = false := rfl
    have c3 : strStarts ("/stock/concept" ++ rest) "/stock/index/realtime" = false := rfl
    have c4 : strStarts ("/stock/concept" ++ rest) "/stock/news" = false := rfl
    have c5 : strStarts ("/stock/concept" ++ rest) "/stock/concept" = true := by
      show listStartsWith ("/stock/concept".data ++ rest.data) "/stock/concept".data = true
      exact listStartsWith_self_append _ _
    unfold akRoute
    rw [c1, c2, c3, c4, c5]
    rfl

/-- C4 witness: the amended dispatch facts at concrete paths. -/
theorem C4_witness :
    astockRoute "/stock/concept" = AstockRoute.concept ∧
    akRoute ("/stock/concept" ++ "/extra") = AkRoute.concept :=
  ⟨C4_amended.1 "/stock/concept" rfl rfl rfl rfl, C4_amended.2 "/extra"⟩

/-- C6 (amended): `data_query.py` always exits 0 and prints exactly one
payload, with an upstream failure embedded as `success: false` plus an
`error` member; `astock.py` always exits 0 and prints exactly one
payload for each of its four recognized subcommands but prints nothing
for an unrecognized one. -/
theorem C6_amended :
    (∀ (cmd a1 a2 : String) (env : DqEnv) (now : String),
        (dqCli cmd a1 a2 env now).1 = 0 ∧ (dqCli cmd a1 a2 env now).2.length = 1) ∧
    (∀ (msg now : String) (lim : Option Nat) (f : Row → Except String JVal),
        jMem (dqHandler (Except.error msg) lim f now) "success" = some (.bool false) ∧
        jMem (dqHandler (Except.error msg) lim f now) "error" =
          some (.str ("获取失败: " ++ msg))) ∧
    (∀ (cmd arg : String) (env : FetchEnv),
        (astockCli cmd arg env).1 = 0 ∧
        (astockCli cmd arg env).2.length =
          (if cmd == "index" || cmd == "stock" || cmd == "concept" || cmd == "industry"
           then 1 else 0)) := by
  refine ⟨fun cmd a1 a2 env now => ⟨rfl, rfl⟩,
          fun msg now lim f => ⟨rfl, rfl⟩,
          fun cmd arg env => ⟨rfl, ?_⟩⟩
  show (astockMainPrints cmd arg env).length = _
  unfold astockMainPrints
  cases hb1 : cmd == "index" <;> cases hb2 : cmd == "stock" <;>
    cases hb3 : cmd == "concept" <;> cases hb4 : cmd == "industry" <;>
      simp [hb1, hb2, hb3, hb4]

/-- C1 (amended): in `akshare_service.py`, a slash-free symbol that does
not begin with `all` and is absent from the upstream realtime snapshot
is answered on `/stock/realtime/{symbol}` with status 404 and the error
payload, never a quote record; the `astock_service.py` variant replies
with status 200 on every path whatsoever (its absent-symbol reply is a
status-200 placeholder quote, per the counterexample). -/
theorem C1_amended (s : String) (df : List Row) (env : AkEnv)
    (hslash : s.data.all (fun c => !(c == '/')) = true)
    (hall : listStartsWith s.data ['a', 'l', 'l'] = false)
    (habsent : df.all (fun r => !cellEqStr (jGet r "代码") s) = true)
    (hspot : env.spot = .ok df) :
    akDoGet ("/stock/realtime/" ++ s) env = ⟨404, errObj "股票未找到"⟩ ∧
    ∀ (path : String) (envS : FetchEnv), (astockDoGet path envS).status = 200 := by
  constructor
  · have c1 : (("/stock/realtime/" ++ s) == "/health") = false := rfl
    have c2 : strStarts ("/stock/realtime/" ++ s) "/stock/realtime/all" = false := by
      show listStartsWith ("/stock/realtime/".data ++ s.data)
        "/stock/realtime/all".data = false
      have e : "/stock/realtime/all".data =
          "/stock/realtime/".data ++ ['a', 'l', 'l'] := rfl
      rw [e, listStartsWith_append_same]
      exact hall
    have c3 : strStarts ("/stock/realtime/" ++ s) "/stock/index/realtime" = false := rfl
    have c4 : strStarts ("/stock/realtime/" ++ s) "/stock/news" = false := rfl
    have c5 : strStarts ("/stock/realtime/" ++ s) "/stock/concept" = false := rfl
    have c6 : strStarts ("/stock/realtime/" ++ s) "/stock/industry" = false := rfl
    have c7 : strStarts ("/stock/realtime/" ++ s) "/stock/realtime/" = true := by
      show listStartsWith ("/stock/realtime/".data ++ s.data)
        "/stock/realtime/".data = true
      exact listStartsWith_self_append _ _
    have hroute : akRoute ("/stock/realtime/" ++ s) = .stockSymbol := by
      unfold akRoute
      rw [c1, c2, c3, c4, c5, c6, c7]
      rfl
    have hsym : lastSegment ("/stock/realtime/" ++ s) = s := by
      show String.mk (lastComponent ("/stock/realtime/".data ++ s.data)) = s
      rw [lastComponent_append "/stock/realtime/".data s.data rfl hslash]
    have hfilter : df.filter (fun r => cellEqStr (jGet r "代码") s) = [] := by
      rw [List.filter_eq_nil_iff]
      intro r hr
      have hz := List.all_eq_true.mp habsent r hr
      simp only [Bool.not_eq_eq_eq_not, Bool.not_true] at hz
      simp [hz]
    show (match akRoute ("/stock/realtime/" ++ s) with
      | AkRoute.health => _ | AkRoute.realtimeAll => _ | AkRoute.indexRealtime => _
      | AkRoute.news => _ | AkRoute.concept => _ | AkRoute.industry => _
      | AkRoute.stockSymbol => akSymbolHandler (lastSegment ("/stock/realtime/" ++ s)) env.spot
      | AkRoute.unknown => _) = _
    rw [hroute]
    show akSymbolHandler (lastSegment ("/stock/realtime/" ++ s)) env.spot = _
    rw [hsym, hspot]
    unfold akSymbolHandler
    simp only [bind, Except.bind]
    rw [hfilter]
    rfl
  · intro path envS
    unfold astockDoGet
    cases hr : astockRoute path with
    | health => rfl
    | index => exact fetchCase_status_200 envS.index indexPlaceholder indexPlaceholder indexListBody
    | stock =>
        exact fetchCase_status_200 envS.stock (stockPlaceholder (lastSegment path))
          (stockPlaceholder (lastSegment path)) (stockQuoteBody (lastSegment path))
    | concept =>
        exact fetchCase_status_200 envS.concept conceptPlaceholder conceptPlaceholder boardListBody
    | industry =>
        exact fetchCase_status_200 envS.industry industryPlaceholder industryPlaceholder boardListBody
    | unknown => rfl

/-- C1 witness: the amended 404 behaviour at a concrete absent symbol
over a concrete one-row snapshot. -/
theorem C1_witness :
    akDoGet ("/stock/realtime/" ++ "999999")
        { spot := .ok [[("代码", .str "600000")]], indexSpot := .error "e",
          news := .error "e", conceptBoard := .error "e", industryBoard := .error "e" } =
      ⟨404, errObj "股票未找到"⟩ :=
  (C1_amended "999999" [[("代码", .str "600000")]]
    { spot := .ok [[("代码", .str "600000")]], indexSpot := .error "e",
      news := .error "e", conceptBoard := .error "e", industryBoard := .error "e" }
    rfl rfl rfl rfl).1

/-- C7 (amended): the null-or-zero default for a missing/falsy upstream
price holds in the akshare-backed quote mappers — zero in the
`akshare_service.py` quote rows, null in the `data_query.py` stock rows
— while the direct-HTTP index mappers copy the raw price value with a
zero default only when the field is entirely absent (a present-but-empty
value passes through, per the counterexample). -/
theorem C7_amended :
    (∀ (row : Row) (q : JVal), (rowGet row "最新价").truthy = false →
        akQuoteRow row = .ok q → jMem q "price" = some (.num 0)) ∧
    (∀ (row : Row) (q : JVal), (rowGet row "最新价").truthy = false →
        stockRow row = .ok q → jMem q "price" = some .null) ∧
    (∀ (l : List (String × JVal)) (q : JVal), jGet l "f2" = none →
        indexItemQuote (.obj l) = .ok q → jMem q "price" = some (.num 0)) := by
  refine ⟨fun row q h hq => ?_, fun row q h hq => ?_, fun l q hf2 hq => ?_⟩
  · simp only [akQuoteRow, exceptBind_ok, pure, Except.pure, Except.ok.injEq] at hq
    obtain ⟨p, hp, c, hc, rfl⟩ := hq
    simp only [floatOrZero, h, Bool.false_eq_true, if_false, pure, Except.pure,
      Except.ok.injEq] at hp
    subst hp
    simp [jMem, jGet, List.lookup]
  · simp only [stockRow, exceptBind_ok, pure, Except.pure, Except.ok.injEq] at hq
    obtain ⟨p, hp, c2, h2, c3, h3, c4, h4, c5, h5, c6, h6, c7, h7, rfl⟩ := hq
    simp only [floatOrNone, h, Bool.false_eq_true, if_false, pure, Except.pure,
      Except.ok.injEq] at hp
    subst hp
    simp [jMem, jGet, List.lookup]
  · simp only [indexItemQuote, pyGetD, exceptBind_ok, pure, Except.pure,
      Except.ok.injEq] at hq
    obtain ⟨s1, hs1, s2, hs2, p, hp, c, hc, rfl⟩ := hq
    rw [jGetD, hf2] at hp
    subst hs1
    subst hs2
    subst hc
    subst hp
    simp [jMem, jGet, List.lookup]

/-- C7 witness: the amended defaults at concrete rows — a row with no
price column for each akshare mapper, and an item with no `f2` member
for the direct-HTTP index mapper. -/
theorem C7_witness :
    jMem (JVal.obj [("symbol", JVal.str "600000"), ("name", JVal.str "甲"),
        ("price", JVal.num 0), ("change", JVal.num 0)]) "price" = some (JVal.num 0) ∧
    jMem (JVal.obj [("symbol", JVal.str "600000"), ("name", JVal.str "甲"),
        ("price", JVal.null), ("change", JVal.num 0),
        ("volume", JVal.str ""), ("amount", JVal.str ""),
        ("amplitude", JVal.num 0), ("high", JVal.null), ("low", JVal.null),
        ("open", JVal.null), ("close", JVal.null)]) "price" = some JVal.null ∧
    jMem (JVal.obj [("symbol", JVal.str "000001"), ("name", JVal.str "甲"),
        ("price", JVal.num 0), ("change", JVal.num 0)]) "price" = some (JVal.num 0) :=
  ⟨C7_amended.1 [("代码", .str "600000"), ("名称", .str "甲")] _ rfl rfl,
   C7_amended.2.1 [("代码", .str "600000"), ("名称", .str "甲")] _ rfl rfl,
   C7_amended.2.2 [("f12", .str "000001"), ("f14", .str "甲")] _ rfl rfl⟩


theorem scaledField_num (m : List (String × JVal)) (k : String) (a : ℚ)
    (hf : jGet m k = some (.num a)) (ha : a ≠ 0) :
    scaledField (.obj m) k = .ok (.num (a / 100)) := by
  unfold scaledField
  simp only [pyGet, pyGetD, bind, Except.bind, jGetD, hf, Option.getD_some]
  rw [if_pos (by simp [JVal.truthy, ha])]
  simp [pyDiv100, Functor.map, Except.map]

theorem scaledField_falsy (m : List (String × JVal)) (k : String)
    (hf : (jGetD m k .null).truthy = false) :
    scaledField (.obj m) k = .ok (.num 0) := by
  unfold scaledField
  simp only [pyGet, pyGetD, bind, Except.bind]
  rw [if_neg (by simp [hf])]
  rfl

/-- C10: in the shared direct-HTTP single-stock quote body (used by the
`astock.py` `stock` subcommand and the `astock_service.py`
`/stock/realtime/{symbol}` endpoint), whenever the parsed upstream
`data` object carries a numeric truthy `f43` the emitted `price` is
`f43 / 100` (and the analogous rescaling holds for `change` from
`f170`), while a falsy-or-absent field yields `0` — a unit rescaling the
spec does not state. -/
theorem C10_stock_rescale :
    (∀ (sym : String) (v : JVal) (m : List (String × JVal)) (a : ℚ) (q : JVal),
        pyGetD v "data" (.obj []) = .ok (.obj m) →
        jGet m "f43" = some (.num a) → a ≠ 0 →
        stockQuoteBody sym v = .ok q → jMem q "price" = some (.num (a / 100))) ∧
    (∀ (sym : String) (v : JVal) (m : List (String × JVal)) (q : JVal),
        pyGetD v "data" (.obj []) = .ok (.obj m) →
        (jGetD m "f43" .null).truthy = false →
        stockQuoteBody sym v = .ok q → jMem q "price" = some (.num 0)) ∧
    (∀ (sym : String) (v : JVal) (m : List (String × JVal)) (b : ℚ) (q : JVal),
        pyGetD v "data" (.obj []) = .ok (.obj m) →
        jGet m "f170" = some (.num b) → b ≠ 0 →
        stockQuoteBody sym v = .ok q → jMem q "change" = some (.num (b / 100))) ∧
    (∀ (sym : String) (v : JVal) (m : List (String × JVal)) (q : JVal),
        pyGetD v "data" (.obj []) = .ok (.obj m) →
        (jGetD m "f170" .null).truthy = false →
        stockQuoteBody sym v = .ok q → jMem q "change" = some (.num 0)) := by
  refine ⟨fun sym v m a q hdata hf ha hq => ?_, fun sym v m q hdata hf hq => ?_,
          fun sym v m b q hdata hf hb hq => ?_, fun sym v m q hdata hf hq => ?_⟩
  all_goals
    simp only [stockQuoteBody, exceptBind_ok, pure, Except.pure, Except.ok.injEq] at hq
    obtain ⟨dataV, hdv, name, hname, price, hprice, change, hchange, rfl⟩ := hq
    rw [hdata] at hdv
    simp only [Except.ok.injEq] at hdv
    subst hdv
  · rw [scaledField_num m "f43" a hf ha] at hprice
    simp only [Except.ok.injEq] at hprice
    subst hprice
    simp [jMem, jGet, List.lookup]
  · rw [scaledField_falsy m "f43" hf] at hprice
    simp only [Except.ok.injEq] at hprice
    subst hprice
    simp [jMem, jGet, List.lookup]
  · rw [scaledField_num m "f170" b hf hb] at hchange
    simp only [Except.ok.injEq] at hchange
    subst hchange
    simp [jMem, jGet, List.lookup]
  · rw [scaledField_falsy m "f170" hf] at hchange
    simp only [Except.ok.injEq] at hchange
    subst hchange
    simp [jMem, jGet, List.lookup]

/-- C10 witness: the rescaling at a concrete upstream object with
`f43 = 1234` and no `f170`. -/
theorem C10_witness :
    jMem (JVal.obj [("symbol", JVal.str "600000"), ("name", JVal.str "平安银行"),
        ("price", JVal.num (1234 / 100)), ("change", JVal.num 0)]) "price" =
      some (JVal.num (1234 / 100)) ∧
    jMem (JVal.obj [("symbol", JVal.str "600000"), ("name", JVal.str "平安银行"),
        ("price", JVal.num (1234 / 100)), ("change", JVal.num 0)]) "change" =
      some (JVal.num 0) :=
  ⟨C10_stock_rescale.1 "600000"
      (.obj [("data", .obj [("f58", .str "平安银行"), ("f43", .num 1234)])])
      [("f58", .str "平安银行"), ("f43", .num 1234)] 1234 _ rfl rfl (by norm_num) rfl,
   C10_stock_rescale.2.2.2 "600000"
      (.obj [("data", .obj [("f58", .str "平安银行"), ("f43", .num 1234)])])
      [("f58", .str "平安银行"), ("f43", .num 1234)] _ rfl rfl rfl⟩
